import Mathlib

/-!
Verification of the SlackBot message-routing and LLM-fallback program
(`spp.py`).

The embedding models:
* the text matchers of the six canned `app.message` rules (translated from
  the Python regular expressions, with the framework matcher semantics:
  a rule fires when `re.findall(pattern, text)` is non-empty and the text
  field is present and non-empty);
* the two `app.event` handlers (`member_joined_channel` welcome and the
  generic `message` fallback);
* the event-dispatch loop of the slack_bolt framework, which runs the
  registered listeners in registration order and executes only the first
  listener whose matchers accept the event (first match wins), after the
  built-in self-event filter;
* the Gemini gateway `get_gemini_response`, including the Python dynamic
  errors its JSON extraction can raise.

Python exceptions raised by handler bodies (KeyError, TypeError,
IndexError, AttributeError) are modelled as an explicit `err` field of the
handler effects; `say` calls and gateway invocations are recorded as lists.
-/

namespace SlackBot

/-- Python word character for the regex class `\w` (ASCII scope):
letters, digits and underscore. -/
def isWordChar (c : Char) : Bool := c.isAlphanum || c = '_'

/-- Python whitespace for `str.strip()` (ASCII scope). -/
def pySpace (c : Char) : Bool :=
  c = ' ' || c = '\t' || c = '\n' || c = '\r' || c = '\x0b' || c = '\x0c'

/-- Lowercasing used to model `re.IGNORECASE` matching of ASCII patterns. -/
def lowerL (l : List Char) : List Char := l.map Char.toLower

/-- Matcher for an anchored pattern `^(p)\b`: the text starts with `p`
and the next character (if any) is not a word character. -/
def startsWordBound (pat : List Char) (l : List Char) : Bool :=
  pat.isPrefixOf l &&
    (match l.drop pat.length with
     | [] => true
     | c :: _ => !isWordChar c)

/-- Substring search: `containsSeq pat t` is true when `pat` occurs
contiguously in `t` (the plain-literal case of `re.findall` being
non-empty). -/
def containsSeq (pat : List Char) : List Char → Bool
  | [] => pat.isEmpty
  | c :: cs => pat.isPrefixOf (c :: cs) || containsSeq pat cs

/-- Regex `^(hello|hi)\b` with `re.IGNORECASE` (rule 1, `message_hello`). -/
def helloMatch (t : String) : Bool :=
  startsWordBound "hello".data (lowerL t.data) ||
    startsWordBound "hi".data (lowerL t.data)

/-- Regex `how are you\??` with `re.IGNORECASE` (rule 2, `message_status`):
the optional `\??` never affects matchability, so a match exists exactly
when the text contains `how are you`. -/
def statusMatch (t : String) : Bool :=
  containsSeq "how are you".data (lowerL t.data)

/-- String pattern `"ping"` (rule 3, `ping_pong`): `re.findall` treats the
keyword as a pattern searched anywhere in the text, case-sensitively. -/
def pingMatch (t : String) : Bool := containsSeq "ping".data t.data

/-- Regex `thanks|thank you` with `re.IGNORECASE` (rule 4). -/
def thanksMatch (t : String) : Bool :=
  containsSeq "thanks".data (lowerL t.data) ||
    containsSeq "thank you".data (lowerL t.data)

/-- String pattern `"give me a tip"` (rule 5, `give_tip`). -/
def tipMatch (t : String) : Bool := containsSeq "give me a tip".data t.data

/-- Regex `^(bye|goodbye)\b` with `re.IGNORECASE` (rule 6, `message_bye`). -/
def byeMatch (t : String) : Bool :=
  startsWordBound "bye".data (lowerL t.data) ||
    startsWordBound "goodbye".data (lowerL t.data)

/-- One attempt of the regex `<@\w+>` at the head of the list: if a mention
token starts here, return the remainder after it.  `\w+` is greedy and `>`
is not a word character, so backtracking never helps: the token matches
exactly when the maximal word-character run after `<@` is non-empty and is
followed by `>`. -/
def mentionAt : List Char → Option (List Char)
  | '<' :: '@' :: rest =>
    match rest.dropWhile isWordChar with
    | '>' :: tail =>
      if rest.takeWhile isWordChar = [] then none else some tail
    | _ => none
  | _ => none

/-- `re.search(r"<@\w+>", text)`: a mention token occurs somewhere. -/
def searchMention : List Char → Bool
  | [] => false
  | c :: cs => (mentionAt (c :: cs)).isSome || searchMention cs

/-- Fuelled worker for `re.sub(r"<@\w+>", "", text)`: scan left to right,
removing each leftmost non-overlapping mention token.  The fuel is the
length of the list, which always suffices. -/
def subMentionF : Nat → List Char → List Char
  | _, [] => []
  | 0, l => l
  | n + 1, c :: cs =>
    match mentionAt (c :: cs) with
    | some tail => subMentionF n tail
    | none => c :: subMentionF n cs

/-- `re.sub(r"<@\w+>", "", text)`. -/
def subMention (l : List Char) : List Char := subMentionF l.length l

/-- Python `str.strip()`: drop whitespace from both ends. -/
def pyStrip (l : List Char) : List Char :=
  ((l.dropWhile pySpace).reverse.dropWhile pySpace).reverse

/-- The two Slack event kinds the program registers listeners for. -/
inductive EvKind where
  | message
  | memberJoined
deriving DecidableEq, Repr

/-- An incoming Slack event, restricted to the fields the program reads:
`text`, `user`, `channel_type` and `bot_id` are all optional in the event
payload. -/
structure SlackEvent where
  kind : EvKind
  text : Option String := none
  user : Option String := none
  channel_type : Option String := none
  bot_id : Option String := none
deriving DecidableEq, Repr

/-- A Python exception escaping a handler body. -/
inductive PyErr where
  | typeErr (msg : String)
  | keyErr (key : String)
  | indexErr (msg : String)
  | attrErr (msg : String)
deriving DecidableEq, Repr

/-- Observable effects of handling one event: the strings passed to `say`,
the prompts passed to `get_gemini_response`, and the exception escaping the
handler body, if any. -/
structure Effects where
  said : List String := []
  geminiCalls : List String := []
  err : Option PyErr := none
deriving DecidableEq, Repr

/-- Handler for `^(hello|hi)\b`: reads `message["user"]` (KeyError when
absent) and greets the sender. -/
def message_hello (e : SlackEvent) : Effects :=
  match e.user with
  | none => { err := some (.keyErr "user") }
  | some u => { said := ["Hello, <@" ++ u ++ ">! 👋"] }

/-- Handler for `how are you\??`. -/
def message_status (e : SlackEvent) : Effects :=
  match e.user with
  | none => { err := some (.keyErr "user") }
  | some u => { said := ["I\x27m doing great, <@" ++ u ++ ">! Thanks for asking."] }

/-- Handler for `"ping"`: does not read any event field. -/
def ping_pong (_e : SlackEvent) : Effects := { said := ["pong"] }

/-- Handler for `thanks|thank you`. -/
def thank_you_response (e : SlackEvent) : Effects :=
  match e.user with
  | none => { err := some (.keyErr "user") }
  | some u => { said := ["You\x27re welcome, <@" ++ u ++ ">!"] }

/-- The fixed candidate set of `give_tip`. -/
def tips : List String :=
  ["Remember to stretch before coding.",
   "Take a short break every hour.",
   "Stay hydrated!"]

/-- Handler for `"give me a tip"`: `random.choice(tips)` is modelled by an
injected random number reduced modulo the size of the candidate set. -/
def give_tip (r : Nat) (_e : SlackEvent) : Effects :=
  { said := [tips.getD (r % 3) ""] }

/-- Handler for `^(bye|goodbye)\b`. -/
def message_bye (e : SlackEvent) : Effects :=
  match e.user with
  | none => { err := some (.keyErr "user") }
  | some u => { said := ["Goodbye, <@" ++ u ++ ">! Hope to talk to you again soon."] }

/-- Handler for the `member_joined_channel` event: reads `event["user"]`
(KeyError when absent). -/
def welcome_new_member (e : SlackEvent) : Effects :=
  match e.user with
  | none => { err := some (.keyErr "user") }
  | some u => { said := ["Welcome, <@" ++ u ++ ">! I\x27m glad you\x27re here."] }

/-- Handler for the generic `message` event (`handle_general_message`),
parameterised by the gateway `g` standing for `get_gemini_response`:
returns immediately on a bot-origin marker; reads `event.get("text")`
(no error) and then `event["user"]` (KeyError when absent); passing a
missing text to `re.search` raises TypeError; otherwise the event
qualifies when the text contains a mention token or the channel type is
`im`, in which case the mention-stripped, whitespace-trimmed text is sent
to the gateway and the reply is said verbatim. -/
def handle_general_message (g : String → String) (e : SlackEvent) : Effects :=
  if e.bot_id.isSome then {}
  else
    match e.user with
    | none => { err := some (.keyErr "user") }
    | some _ =>
      match e.text with
      | none => { err := some (.typeErr "expected string or bytes-like object") }
      | some t =>
        if searchMention t.data || e.channel_type == some "im" then
          let cleaned := String.mk (pyStrip (subMention t.data))
          { said := [g cleaned], geminiCalls := [cleaned] }
        else {}

/-- The framework middleware `MessageListenerMatches`: a canned rule fires
when the event text is present, non-empty, and the pattern finds a match. -/
def matcherFires (pat : String → Bool) (e : SlackEvent) : Bool :=
  let t := e.text.getD ""
  !t.data.isEmpty && pat t

/-- The framework filter `IgnoringSelfEvents`: events whose `bot_id`
equals the bot id of this app itself are dropped before any listener
runs.  `selfBot` is the bot id of the running app. -/
def ignoresSelf (selfBot : Option String) (e : SlackEvent) : Bool :=
  match selfBot, e.bot_id with
  | some s, some b => s == b
  | _, _ => false

/-- The slack_bolt dispatch loop over the listeners of `spp.py`, in
registration order, executing only the first listener whose matchers
accept the event.  `g` stands for the gateway and `r` for the random
source of `give_tip`. -/
def dispatch (selfBot : Option String) (g : String → String) (r : Nat)
    (e : SlackEvent) : Effects :=
  if ignoresSelf selfBot e then {}
  else
    match e.kind with
    | .memberJoined => welcome_new_member e
    | .message =>
      if matcherFires helloMatch e then message_hello e
      else if matcherFires statusMatch e then message_status e
      else if matcherFires pingMatch e then ping_pong e
      else if matcherFires thanksMatch e then thank_you_response e
      else if matcherFires tipMatch e then give_tip r e
      else if matcherFires byeMatch e then message_bye e
      else handle_general_message g e

/-- A JSON value, as returned by `response.json()`. -/
inductive Json where
  | null
  | str (s : String)
  | num (n : Int)
  | arr (elems : List Json)
  | obj (fields : List (String × Json))
deriving Repr

/-- Python `d.get(k, dflt)`: on a dict, look the key up with a default; on
any other value, raise AttributeError. -/
def jget (j : Json) (k : String) (dflt : Json) : Except PyErr Json :=
  match j with
  | .obj fields =>
    match fields.lookup k with
    | some v => .ok v
    | none => .ok dflt
  | _ => .error (.attrErr "get")

/-- Python `x[0]`: head of a list (IndexError when empty), first character
of a string (IndexError when empty), KeyError `0` on a dict, TypeError on
anything else. -/
def jat0 (j : Json) : Except PyErr Json :=
  match j with
  | .arr [] => .error (.indexErr "list index out of range")
  | .arr (x :: _) => .ok x
  | .str s =>
    match s.data with
    | [] => .error (.indexErr "string index out of range")
    | c :: _ => .ok (.str (String.mk [c]))
  | .obj _ => .error (.keyErr "0")
  | _ => .error (.typeErr "object is not subscriptable")

/-- The extraction line of `get_gemini_response`:
`result.get("candidates", [{}])[0].get("content", {}).get("parts", [{}])[0].get("text", "No response found.")`. -/
def extract_text (result : Json) : Except PyErr Json := do
  let cands ← jget result "candidates" (.arr [.obj []])
  let c0 ← jat0 cands
  let content ← jget c0 "content" (.obj [])
  let parts ← jget content "parts" (.arr [.obj []])
  let p0 ← jat0 parts
  jget p0 "text" (.str "No response found.")

/-- The outcome of the single `requests.post` call: either a transport
failure (a `RequestException` carrying a message) or an HTTP response with
a status code, a reason phrase and a parsed JSON body. -/
inductive HttpOutcome where
  | failure (emsg : String)
  | response (status : Nat) (reason : String) (body : Json)
deriving Repr

/-- The static degraded-mode reply for a missing API key. -/
def offlineReply : String := "I can\x27t answer that right now. My AI brain is offline."

/-- The static degraded-mode reply for a caught request error. -/
def connectReply : String :=
  "I\x27m having trouble connecting to my knowledge base right now. Please try again later."

/-- The request URL up to the key query parameter; the configured API key
is appended to it. -/
def baseUrl : String :=
  "https://generativelanguage.googleapis.com/v1beta/models/gemini-pro:generateContent?key="

/-- The message of the `HTTPError` raised by `response.raise_for_status()`
for a 4xx or 5xx status: it embeds the request URL. -/
def httpErrorMsg (status : Nat) (reason url : String) : String :=
  if status < 500 then
    toString status ++ " Client Error: " ++ reason ++ " for url: " ++ url
  else
    toString status ++ " Server Error: " ++ reason ++ " for url: " ++ url

/-- Result of one `get_gemini_response` call: the returned value (or the
Python exception escaping it), whether the HTTP request was attempted, and
the diagnostics printed. -/
structure GatewayResult where
  reply : Except PyErr Json
  networkAttempted : Bool
  logs : List String
deriving Repr

/-- `get_gemini_response(prompt)`: with a falsy key (`None` or empty) it
returns the offline string before any network I/O; otherwise it performs
the request, treats any `RequestException` (transport failure or the
`HTTPError` of `raise_for_status` on a 4xx/5xx status) by logging and
returning the connectivity string, and otherwise extracts the reply text
from the JSON body, any Python error of the extraction escaping uncaught.
The prompt only flows into the request payload, which the outcome
abstracts. -/
def get_gemini_response (apiKey : Option String) (prompt : String)
    (net : HttpOutcome) : GatewayResult :=
  if apiKey.getD "" = "" then
    { reply := .ok (.str offlineReply), networkAttempted := false,
      logs := ["GEMINI_API_KEY is not set."] }
  else
    let key := apiKey.getD ""
    let api_url := baseUrl ++ key
    let _ := prompt
    match net with
    | .failure emsg =>
      { reply := .ok (.str connectReply), networkAttempted := true,
        logs := ["Error calling Gemini API: " ++ emsg] }
    | .response status reason body =>
      if 400 ≤ status ∧ status < 600 then
        { reply := .ok (.str connectReply), networkAttempted := true,
          logs := ["Error calling Gemini API: " ++ httpErrorMsg status reason api_url] }
      else
        { reply := extract_text body, networkAttempted := true, logs := [] }

/-! ### Helper lemmas about the embedded string scanning -/

theorem length_dropWhile_le (p : Char → Bool) (l : List Char) :
    (l.dropWhile p).length ≤ l.length := by
  induction l with
  | nil => simp [List.dropWhile]
  | cons c cs ih =>
    by_cases h : p c = true
    · simp [List.dropWhile, h]; omega
    · simp [List.dropWhile, h]

theorem ignoresSelf_of_none (selfBot : Option String) (e : SlackEvent)
    (h : e.bot_id = none) : ignoresSelf selfBot e = false := by
  unfold ignoresSelf
  rw [h]
  cases selfBot <;> rfl

theorem mentionAt_length_lt (l tail : List Char) (h : mentionAt l = some tail) :
    tail.length < l.length := by
  unfold mentionAt at h
  split at h
  · rename_i rest
    split at h
    · rename_i tail' hdrop
      split at h
      · exact absurd h (by simp)
      · have hlen : (rest.dropWhile isWordChar).length ≤ rest.length :=
          length_dropWhile_le isWordChar rest
        rw [hdrop] at hlen
        simp only [Option.some.injEq] at h
        subst h
        simp only [List.length_cons] at hlen ⊢
        omega
    · exact absurd h (by simp)
  · exact absurd h (by simp)

theorem dropWhile_word_append (w rest : List Char)
    (hw : ∀ c ∈ w, isWordChar c = true) :
    (w ++ '>' :: rest).dropWhile isWordChar = '>' :: rest := by
  induction w with
  | nil => simp [List.dropWhile, isWordChar]
  | cons c w' ih =>
    have hc : isWordChar c = true := hw c (by simp)
    simp only [List.cons_append, List.dropWhile, hc]
    exact ih fun d hd => hw d (by simp [hd])

theorem mentionAt_word (w s : List Char) (hne : w ≠ [])
    (hw : ∀ c ∈ w, isWordChar c = true) :
    mentionAt ('<' :: '@' :: (w ++ '>' :: s)) = some s := by
  cases w with
  | nil => exact absurd rfl hne
  | cons c w' =>
    have hc : isWordChar c = true := hw c (by simp)
    have hdrop := dropWhile_word_append (c :: w') s hw
    simp only [mentionAt, hdrop]
    simp [List.takeWhile, hc]

theorem mentionAt_ne_lt (c : Char) (cs : List Char) (h : c ≠ '<') :
    mentionAt (c :: cs) = none := by
  unfold mentionAt
  split
  · rename_i heq
    rw [List.cons.injEq] at heq
    exact absurd heq.1 h
  · rfl

theorem searchMention_cons_some (l tail : List Char)
    (h : mentionAt l = some tail) : searchMention l = true := by
  cases l with
  | nil => simp [mentionAt] at h
  | cons c cs => simp [searchMention, h]

theorem searchMention_append_of (p rest : List Char)
    (h : searchMention rest = true) : searchMention (p ++ rest) = true := by
  induction p with
  | nil => simpa using h
  | cons c p' ih => simp [searchMention, ih]

theorem subMentionF_fuel : ∀ (n m : Nat) (l : List Char),
    l.length ≤ n → l.length ≤ m → subMentionF n l = subMentionF m l := by
  intro n
  induction n with
  | zero =>
    intro m l hn _
    have : l = [] := List.eq_nil_of_length_eq_zero (Nat.le_zero.mp hn)
    subst this
    cases m <;> rfl
  | succ n ih =>
    intro m l hn hm
    cases l with
    | nil => cases m <;> rfl
    | cons c cs =>
      cases m with
      | zero => simp at hm
      | succ m' =>
        simp only [subMentionF]
        cases hma : mentionAt (c :: cs) with
        | some tail =>
          have hlt := mentionAt_length_lt _ _ hma
          simp only [List.length_cons] at hlt hn hm
          exact ih m' tail (by omega) (by omega)
        | none =>
          simp only [List.length_cons] at hn hm
          rw [ih m' cs (by omega) (by omega)]

theorem subMention_cons_of_mentionAt (c : Char) (cs tail : List Char)
    (h : mentionAt (c :: cs) = some tail) :
    subMention (c :: cs) = subMention tail := by
  have hlt := mentionAt_length_lt _ _ h
  unfold subMention
  simp only [List.length_cons, subMentionF, h]
  exact subMentionF_fuel cs.length tail.length tail
    (by simp only [List.length_cons] at hlt; omega) (Nat.le_refl _)

theorem subMention_cons_ne (c : Char) (cs : List Char) (h : c ≠ '<') :
    subMention (c :: cs) = c :: subMention cs := by
  unfold subMention
  simp only [List.length_cons, subMentionF, mentionAt_ne_lt c cs h]

theorem subMention_mention (w s : List Char) (hne : w ≠ [])
    (hw : ∀ c ∈ w, isWordChar c = true) :
    subMention ('<' :: '@' :: (w ++ '>' :: s)) = subMention s :=
  subMention_cons_of_mentionAt _ _ _ (mentionAt_word w s hne hw)

theorem subMention_append_no_lt (a rest : List Char)
    (ha : ∀ c ∈ a, c ≠ '<') :
    subMention (a ++ rest) = a ++ subMention rest := by
  induction a with
  | nil => simp
  | cons c a' ih =>
    have hc : c ≠ '<' := ha c (by simp)
    rw [List.cons_append, subMention_cons_ne c (a' ++ rest) hc,
      ih fun d hd => ha d (by simp [hd]), List.cons_append]

theorem isPrefixOf_self (l : List Char) : l.isPrefixOf l = true := by
  induction l with
  | nil => rfl
  | cons c cs ih => simp [List.isPrefixOf, ih]

theorem containsSeq_self (l : List Char) : containsSeq l l = true := by
  cases l with
  | nil => rfl
  | cons c cs => simp [containsSeq, isPrefixOf_self]

theorem containsSeq_append_left (pat a t : List Char)
    (h : containsSeq pat t = true) : containsSeq pat (a ++ t) = true := by
  induction a with
  | nil => simpa using h
  | cons c a' ih =>
    cases hpt : pat.isPrefixOf (c :: (a' ++ t)) with
    | true => simp [containsSeq, hpt]
    | false => simp [containsSeq, hpt, ih]

theorem sdata_append (s t : String) : (s ++ t).data = s.data ++ t.data := by
  cases s
  cases t
  rfl

/-! ### Per-handler facts shared by the routing theorems -/

theorem said_len_hello (e : SlackEvent) : (message_hello e).said.length ≤ 1 := by
  unfold message_hello; cases e.user <;> simp

theorem said_len_status (e : SlackEvent) : (message_status e).said.length ≤ 1 := by
  unfold message_status; cases e.user <;> simp

theorem said_len_ping (e : SlackEvent) : (ping_pong e).said.length ≤ 1 := by
  simp [ping_pong]

theorem said_len_thanks (e : SlackEvent) : (thank_you_response e).said.length ≤ 1 := by
  unfold thank_you_response; cases e.user <;> simp

theorem said_len_tip (r : Nat) (e : SlackEvent) : (give_tip r e).said.length ≤ 1 := by
  simp [give_tip]

theorem said_len_bye (e : SlackEvent) : (message_bye e).said.length ≤ 1 := by
  unfold message_bye; cases e.user <;> simp

theorem said_len_welcome (e : SlackEvent) : (welcome_new_member e).said.length ≤ 1 := by
  unfold welcome_new_member; cases e.user <;> simp

theorem said_len_general (g : String → String) (e : SlackEvent) :
    (handle_general_message g e).said.length ≤ 1 := by
  unfold handle_general_message
  repeat' split
  all_goals simp

theorem gem_hello (e : SlackEvent) : (message_hello e).geminiCalls = [] := by
  unfold message_hello; cases e.user <;> rfl

theorem gem_status (e : SlackEvent) : (message_status e).geminiCalls = [] := by
  unfold message_status; cases e.user <;> rfl

theorem gem_thanks (e : SlackEvent) : (thank_you_response e).geminiCalls = [] := by
  unfold thank_you_response; cases e.user <;> rfl

theorem gem_bye (e : SlackEvent) : (message_bye e).geminiCalls = [] := by
  unfold message_bye; cases e.user <;> rfl

theorem gem_welcome (e : SlackEvent) : (welcome_new_member e).geminiCalls = [] := by
  unfold welcome_new_member; cases e.user <;> rfl

/-! ### Claim theorems -/

/-- C1: rule dispatch is first-match-wins in the fixed registration order:
(1) every incoming event produces at most one reply; (2) whenever any of
the six canned matchers accepts the event, the LLM fallback gateway is
never invoked; (3) a direct-message event with text `hello there` produces
exactly the greeting reply and no gateway call, for every gateway
behaviour and random source. -/
theorem first_match_wins :
    (∀ (selfBot : Option String) (g : String → String) (r : Nat) (e : SlackEvent),
      (dispatch selfBot g r e).said.length ≤ 1) ∧
    (∀ (selfBot : Option String) (g : String → String) (r : Nat) (e : SlackEvent),
      (matcherFires helloMatch e || matcherFires statusMatch e ||
        matcherFires pingMatch e || matcherFires thanksMatch e ||
        matcherFires tipMatch e || matcherFires byeMatch e) = true →
      (dispatch selfBot g r e).geminiCalls = []) ∧
    (∀ (g : String → String) (r : Nat) (u : String),
      dispatch none g r ⟨.message, some "hello there", some u, some "im", none⟩ =
        { said := ["Hello, <@" ++ u ++ ">! 👋"], geminiCalls := [], err := none }) := by
  refine ⟨?_, ?_, ?_⟩
  · intro selfBot g r e
    unfold dispatch
    repeat' split
    all_goals first
      | simp
      | exact said_len_hello _
      | exact said_len_status _
      | exact said_len_ping _
      | exact said_len_thanks _
      | exact said_len_tip _ _
      | exact said_len_bye _
      | exact said_len_welcome _
      | exact said_len_general _ _
  · intro selfBot g r e h
    unfold dispatch
    repeat' split
    all_goals first
      | rfl
      | exact gem_hello _
      | exact gem_status _
      | exact gem_thanks _
      | exact gem_bye _
      | exact gem_welcome _
      | simp_all
  · intro g r u
    rfl

/-- Closed witness for C1 at concrete inputs. -/
theorem first_match_wins_witness :
    (dispatch none (fun s => s) 0
      ⟨.message, some "thanks!", some "U7", some "channel", none⟩).geminiCalls = [] ∧
    dispatch none (fun s => s) 0
      ⟨.message, some "hello there", some "U7", some "im", none⟩ =
        { said := ["Hello, <@U7>! 👋"], geminiCalls := [], err := none } :=
  ⟨first_match_wins.2.1 none (fun s => s) 0
      ⟨.message, some "thanks!", some "U7", some "channel", none⟩ (by decide),
    first_match_wins.2.2 (fun s => s) 0 "U7"⟩

/-- C2 counterexample: an event carrying a bot-origin marker (from a bot
other than this app itself) whose text is `hello` still produces the
canned greeting reply — the canned rules do not check `bot_id`. -/
theorem bot_message_gets_canned_reply :
    dispatch (some "B0") (fun s => s) 0
      ⟨.message, some "hello", some "UBOT", some "channel", some "B9"⟩ =
      { said := ["Hello, <@UBOT>! 👋"], geminiCalls := [], err := none } := by
  decide

/-- C2 amended: only the LLM fallback handler checks the bot-origin
marker.  For every event carrying a `bot_id`, the gateway is never
invoked, and if the event is a message matching no canned rule the
fallback produces nothing at all; but a canned rule matching the text
still produces its reply (see the counterexample). -/
theorem bot_origin_blocks_only_fallback :
    ∀ (selfBot : Option String) (g : String → String) (r : Nat) (e : SlackEvent),
      e.bot_id.isSome = true →
      (dispatch selfBot g r e).geminiCalls = [] ∧
      (e.kind = .message →
        (matcherFires helloMatch e || matcherFires statusMatch e ||
          matcherFires pingMatch e || matcherFires thanksMatch e ||
          matcherFires tipMatch e || matcherFires byeMatch e) = false →
        dispatch selfBot g r e = {}) := by
  intro selfBot g r e hb
  constructor
  · unfold dispatch
    repeat' split
    all_goals first
      | rfl
      | exact gem_hello _
      | exact gem_status _
      | exact gem_thanks _
      | exact gem_bye _
      | exact gem_welcome _
      | simp [handle_general_message, hb]
  · intro hk hm
    unfold dispatch
    repeat' split
    all_goals
      solve
        | rfl
        | simp [handle_general_message, hb]
        | simp_all

/-- Closed witness for C2 amended at a concrete bot-origin event. -/
theorem bot_origin_blocks_only_fallback_witness :
    (dispatch none (fun s => s) 0
      ⟨.message, some "xkcd", some "U1", some "channel", some "B9"⟩).geminiCalls = [] ∧
    dispatch none (fun s => s) 0
      ⟨.message, some "xkcd", some "U1", some "channel", some "B9"⟩ = {} := by
  have h := bot_origin_blocks_only_fallback none (fun s => s) 0
    ⟨.message, some "xkcd", some "U1", some "channel", some "B9"⟩ (by decide)
  exact ⟨h.1, h.2 rfl (by decide)⟩

/-- C3: contrary to the claim, malformed events are not treated as quietly
non-matching: a non-bot message event without a `text` field reaches the
fallback handler and raises TypeError (from `re.search` on `None`); a
message event without a `user` field raises KeyError (`event["user"]`)
even though the variable is unused; a membership event without a `user`
field raises KeyError in the welcome handler.  No reply is produced, but
an exception escapes each handler body. -/
theorem malformed_event_raises :
    dispatch none (fun s => s) 0 ⟨.message, none, some "U1", some "im", none⟩ =
      { said := [], geminiCalls := [],
        err := some (.typeErr "expected string or bytes-like object") } ∧
    dispatch none (fun s => s) 0 ⟨.message, some "zzz", none, some "channel", none⟩ =
      { said := [], geminiCalls := [], err := some (.keyErr "user") } ∧
    dispatch none (fun s => s) 0 ⟨.memberJoined, none, none, none, none⟩ =
      { said := [], geminiCalls := [], err := some (.keyErr "user") } := by
  decide

/-- C4 counterexample: a public-channel message whose text is exactly one
mention token qualifies for the fallback and invokes the gateway with the
empty prompt — the code has no empty-prompt guard. -/
theorem mention_only_calls_gateway_empty :
    (dispatch none (fun _ => "R") 0
      ⟨.message, some "<@U123>", some "U1", some "channel", none⟩).geminiCalls
      = [""] := by
  decide

/-- C4 amended: the prompt passed to the gateway is the mention-stripped,
trimmed text, which can be empty: for every mention-only text `<@w>` (any
identifier `w`), every channel kind and every gateway behaviour, the
fallback handler calls the gateway with the empty prompt. -/
theorem empty_prompt_reaches_gateway :
    ∀ (g : String → String) (u : String) (ct : Option String) (w : List Char),
      w ≠ [] → (∀ c ∈ w, isWordChar c = true) →
      handle_general_message g
        ⟨.message, some (String.mk ('<' :: '@' :: (w ++ ['>']))), some u, ct, none⟩ =
        { said := [g ""], geminiCalls := [""], err := none } := by
  intro g u ct w hne hw
  have hm : mentionAt ('<' :: '@' :: (w ++ ['>'])) = some [] :=
    mentionAt_word w [] hne hw
  have hs : searchMention ('<' :: '@' :: (w ++ ['>'])) = true :=
    searchMention_cons_some _ _ hm
  have hsub : subMention ('<' :: '@' :: (w ++ ['>'])) = [] := by
    rw [subMention_cons_of_mentionAt _ _ _ hm]; rfl
  unfold handle_general_message
  simp [hs, hsub]
  exact ⟨rfl, rfl⟩

/-- Closed witness for C4 amended at the concrete text `<@U123>`. -/
theorem empty_prompt_reaches_gateway_witness :
    handle_general_message (fun _ => "R")
      ⟨.message, some "<@U123>", some "U1", some "channel", none⟩ =
      { said := ["R"], geminiCalls := [""], err := none } := by
  have h := empty_prompt_reaches_gateway (fun _ => "R") "U1" (some "channel")
    ['U', '1', '2', '3'] (by decide) (by decide)
  exact h

theorem dispatch_no_canned (selfBot : Option String) (g : String → String)
    (r : Nat) (e : SlackEvent)
    (hk : e.kind = .message) (hb : e.bot_id = none)
    (h1 : matcherFires helloMatch e = false)
    (h2 : matcherFires statusMatch e = false)
    (h3 : matcherFires pingMatch e = false)
    (h4 : matcherFires thanksMatch e = false)
    (h5 : matcherFires tipMatch e = false)
    (h6 : matcherFires byeMatch e = false) :
    dispatch selfBot g r e = handle_general_message g e := by
  unfold dispatch
  rw [ignoresSelf_of_none selfBot e hb, hk]
  simp [h1, h2, h3, h4, h5, h6]

/-- C5: contrary to the claim, `get_gemini_response` does not absorb every
malformed JSON shape: a 2xx response whose body is `{"candidates": []}`
makes the extraction index an empty list, and the resulting IndexError is
not a `RequestException`, so it escapes the function. -/
theorem gateway_raises_on_empty_candidates :
    (get_gemini_response (some "KEY") "q"
      (.response 200 "OK" (.obj [("candidates", .arr [])]))).reply
      = .error (.indexErr "list index out of range") ∧
    (get_gemini_response (some "KEY") "q"
      (.response 200 "OK" (.obj [("candidates", .arr [])]))).networkAttempted
      = true :=
  ⟨rfl, rfl⟩

/-- C6: for a non-bot message event with text and user present matching no
canned rule, the fallback fires exactly when the text contains a mention
token or the channel type is `im`; when it fires, the gateway is called
once with the mention-stripped trimmed text and its answer is said
verbatim; otherwise nothing is said and the gateway is never invoked. -/
theorem fallback_iff_mention_or_dm :
    ∀ (selfBot : Option String) (g : String → String) (r : Nat)
      (t u : String) (ct : Option String),
      matcherFires helloMatch ⟨.message, some t, some u, ct, none⟩ = false →
      matcherFires statusMatch ⟨.message, some t, some u, ct, none⟩ = false →
      matcherFires pingMatch ⟨.message, some t, some u, ct, none⟩ = false →
      matcherFires thanksMatch ⟨.message, some t, some u, ct, none⟩ = false →
      matcherFires tipMatch ⟨.message, some t, some u, ct, none⟩ = false →
      matcherFires byeMatch ⟨.message, some t, some u, ct, none⟩ = false →
      (((searchMention t.data || (ct == some "im")) = true →
        dispatch selfBot g r ⟨.message, some t, some u, ct, none⟩ =
          { said := [g (String.mk (pyStrip (subMention t.data)))],
            geminiCalls := [String.mk (pyStrip (subMention t.data))],
            err := none }) ∧
       ((searchMention t.data || (ct == some "im")) = false →
        dispatch selfBot g r ⟨.message, some t, some u, ct, none⟩ =
          { said := [], geminiCalls := [], err := none })) := by
  intro selfBot g r t u ct h1 h2 h3 h4 h5 h6
  have hd := dispatch_no_canned selfBot g r ⟨.message, some t, some u, ct, none⟩
    rfl rfl h1 h2 h3 h4 h5 h6
  constructor
  · intro hq
    rw [hd]
    unfold handle_general_message
    simp [hq]
  · intro hq
    rw [hd]
    unfold handle_general_message
    simp [hq]

/-- Closed witness for C6 at the spec example: a public-channel message
`<@U123> explain recursion` yields one gateway call with the cleaned
prompt `explain recursion` and says the returned text verbatim. -/
theorem fallback_iff_mention_or_dm_witness :
    dispatch none (fun s => "ans:" ++ s) 0
      ⟨.message, some "<@U123> explain recursion", some "U1", some "channel", none⟩ =
      { said := ["ans:explain recursion"], geminiCalls := ["explain recursion"],
        err := none } := by
  have h := (fallback_iff_mention_or_dm none (fun s => "ans:" ++ s) 0
    "<@U123> explain recursion" "U1" (some "channel")
    (by decide) (by decide) (by decide) (by decide) (by decide) (by decide)).1
    (by decide)
  rw [h]
  decide

/-- C7: with no API key configured (absent or empty), the gateway
immediately returns the static offline degraded-mode string without
attempting any network I/O, for every prompt and every would-be network
outcome. -/
theorem offline_reply_without_network :
    ∀ (apiKey : Option String) (prompt : String) (net : HttpOutcome),
      apiKey = none ∨ apiKey = some "" →
      get_gemini_response apiKey prompt net =
        { reply := .ok (.str offlineReply), networkAttempted := false,
          logs := ["GEMINI_API_KEY is not set."] } := by
  rintro apiKey prompt net (rfl | rfl) <;> rfl

/-- Closed witness for C7. -/
theorem offline_reply_without_network_witness :
    get_gemini_response none "hello" (.failure "boom") =
      { reply := .ok (.str offlineReply), networkAttempted := false,
        logs := ["GEMINI_API_KEY is not set."] } :=
  offline_reply_without_network none "hello" (.failure "boom") (Or.inl rfl)

/-- C8 counterexample: the text `" ping "` does match rule 3 (the
framework searches the plain pattern anywhere in the text), producing
`pong`, contrary to the claim that only the exact text `ping` matches. -/
theorem space_ping_matches :
    dispatch none (fun s => s) 0
      ⟨.message, some " ping ", some "U1", some "channel", none⟩ =
      { said := ["pong"], geminiCalls := [], err := none } := by
  decide

/-- C8 amended: rule 3 fires whenever the text contains `ping` as a
case-sensitive substring (and rules 1 and 2 did not match), replying
`pong`; `Ping` still does not match, but surrounded text such as
`" ping "` does. -/
theorem ping_substring_rule :
    (∀ (selfBot : Option String) (g : String → String) (r : Nat)
       (t u : String) (ct : Option String),
      matcherFires helloMatch ⟨.message, some t, some u, ct, none⟩ = false →
      matcherFires statusMatch ⟨.message, some t, some u, ct, none⟩ = false →
      containsSeq "ping".data t.data = true →
      dispatch selfBot g r ⟨.message, some t, some u, ct, none⟩ =
        { said := ["pong"], geminiCalls := [], err := none }) ∧
    pingMatch "Ping" = false ∧ pingMatch " ping " = true := by
  refine ⟨?_, by decide, by decide⟩
  intro selfBot g r t u ct h1 h2 hp
  have hne : t.data.isEmpty = false := by
    cases ht : t.data with
    | nil => rw [ht] at hp; exact absurd hp (by decide)
    | cons c cs => simp
  have hig : ignoresSelf selfBot ⟨.message, some t, some u, ct, none⟩ = false :=
    ignoresSelf_of_none _ _ rfl
  have hping : matcherFires pingMatch ⟨.message, some t, some u, ct, none⟩ = true := by
    simp [matcherFires, pingMatch, hne, hp]
  unfold dispatch
  simp [hig, h1, h2, hping, ping_pong]

/-- Closed witness for C8 amended: `x ping y` falls past rules 1 and 2,
contains `ping`, and yields `pong`. -/
theorem ping_substring_rule_witness :
    dispatch none (fun s => s) 0
      ⟨.message, some "x ping y", some "U1", some "channel", none⟩ =
      { said := ["pong"], geminiCalls := [], err := none } :=
  ping_substring_rule.1 none (fun s => s) 0 "x ping y" "U1" (some "channel")
    (by decide) (by decide) (by decide)

/-- C9 counterexample: the error-path diagnostic CAN contain the API key.
With key `SECRETKEY` and a 404 response, the logged message embeds the
request URL, which carries the key as a query parameter. -/
theorem api_key_appears_in_error_log :
    containsSeq "SECRETKEY".data
      (((get_gemini_response (some "SECRETKEY") "hi"
        (.response 404 "Not Found" .null)).logs.headD "").data) = true := by
  decide

/-- C9 amended: the three secrets are module-level constants assigned once
and never reassigned, but `never logged` fails: for every non-empty key
and every 4xx/5xx response, the gateway logs exactly one message and that
message contains the API key (the `HTTPError` text of
`raise_for_status` embeds the request URL, which ends in the key). -/
theorem secrets_constant_but_key_loggable :
    ∀ (key prompt reason : String) (status : Nat) (body : Json),
      key ≠ "" → 400 ≤ status → status < 600 →
      ∃ msg,
        (get_gemini_response (some key) prompt
          (.response status reason body)).logs = [msg] ∧
        containsSeq key.data msg.data = true := by
  intro key prompt reason status body hk h4 h6
  unfold get_gemini_response
  rw [if_neg (by simpa using hk)]
  simp only [Option.getD_some]
  rw [if_pos ⟨h4, h6⟩]
  refine ⟨_, rfl, ?_⟩
  unfold httpErrorMsg
  by_cases h5 : status < 500 <;>
    simp only [h5, if_true, if_false, reduceIte, Option.getD_some, sdata_append] <;>
    (apply containsSeq_append_left
     apply containsSeq_append_left
     apply containsSeq_append_left
     exact containsSeq_self _)

/-- Closed witness for C9 amended at a concrete key and a 500 response. -/
theorem secrets_constant_but_key_loggable_witness :
    ∃ msg,
      (get_gemini_response (some "K1") "q"
        (.response 500 "Internal Server Error" .null)).logs = [msg] ∧
      containsSeq "K1".data msg.data = true :=
  secrets_constant_but_key_loggable "K1" "q" "Internal Server Error" 500 .null
    (by decide) (by decide) (by decide)

/-- C10: the fallback qualification checks only the shape `<@identifier>`,
never that the mention refers to this bot: (1) a text containing a mention
of ANY identifier `w` is accepted by the mention search; (2) such a
message event (matching no canned rule, from any channel kind, not only
direct messages) invokes the gateway with the fully stripped text;
(3) the stripping removes the mention tokens of ALL identifiers present,
not only one of them. -/
theorem any_mention_qualifies_for_fallback :
    (∀ (p s w : List Char), w ≠ [] → (∀ c ∈ w, isWordChar c = true) →
      searchMention (p ++ '<' :: '@' :: (w ++ '>' :: s)) = true) ∧
    (∀ (selfBot : Option String) (g : String → String) (r : Nat)
       (u : String) (ct : Option String) (p s w : List Char),
      w ≠ [] → (∀ c ∈ w, isWordChar c = true) →
      matcherFires helloMatch
        ⟨.message, some (String.mk (p ++ '<' :: '@' :: (w ++ '>' :: s))),
          some u, ct, none⟩ = false →
      matcherFires statusMatch
        ⟨.message, some (String.mk (p ++ '<' :: '@' :: (w ++ '>' :: s))),
          some u, ct, none⟩ = false →
      matcherFires pingMatch
        ⟨.message, some (String.mk (p ++ '<' :: '@' :: (w ++ '>' :: s))),
          some u, ct, none⟩ = false →
      matcherFires thanksMatch
        ⟨.message, some (String.mk (p ++ '<' :: '@' :: (w ++ '>' :: s))),
          some u, ct, none⟩ = false →
      matcherFires tipMatch
        ⟨.message, some (String.mk (p ++ '<' :: '@' :: (w ++ '>' :: s))),
          some u, ct, none⟩ = false →
      matcherFires byeMatch
        ⟨.message, some (String.mk (p ++ '<' :: '@' :: (w ++ '>' :: s))),
          some u, ct, none⟩ = false →
      (dispatch selfBot g r
        ⟨.message, some (String.mk (p ++ '<' :: '@' :: (w ++ '>' :: s))),
          some u, ct, none⟩).geminiCalls =
        [String.mk (pyStrip (subMention (p ++ '<' :: '@' :: (w ++ '>' :: s))))]) ∧
    (∀ (w₁ w₂ mid : List Char), w₁ ≠ [] → (∀ c ∈ w₁, isWordChar c = true) →
      w₂ ≠ [] → (∀ c ∈ w₂, isWordChar c = true) → (∀ c ∈ mid, c ≠ '<') →
      subMention
        ('<' :: '@' :: (w₁ ++ '>' :: (mid ++ '<' :: '@' :: (w₂ ++ ['>'])))) =
        mid) := by
  refine ⟨?_, ?_, ?_⟩
  · intro p s w hne hw
    exact searchMention_append_of p _
      (searchMention_cons_some _ _ (mentionAt_word w s hne hw))
  · intro selfBot g r u ct p s w hne hw h1 h2 h3 h4 h5 h6
    have hsrch : searchMention (p ++ '<' :: '@' :: (w ++ '>' :: s)) = true :=
      searchMention_append_of p _
        (searchMention_cons_some _ _ (mentionAt_word w s hne hw))
    have hd := dispatch_no_canned selfBot g r
      ⟨.message, some (String.mk (p ++ '<' :: '@' :: (w ++ '>' :: s))),
        some u, ct, none⟩ rfl rfl h1 h2 h3 h4 h5 h6
    rw [hd]
    unfold handle_general_message
    simp [hsrch]
  · intro w₁ w₂ mid hne₁ hw₁ hne₂ hw₂ hmid
    rw [subMention_mention w₁ _ hne₁ hw₁,
      subMention_append_no_lt mid _ hmid,
      subMention_mention w₂ [] hne₂ hw₂]
    simp [subMention, subMentionF]

/-- Closed witness for C10 at a mention of another user `U42` in a public
channel: the gateway is invoked with the stripped text. -/
theorem any_mention_qualifies_for_fallback_witness :
    (dispatch none (fun s => s) 0
      ⟨.message,
        some (String.mk (([] : List Char) ++
          '<' :: '@' :: (['U', '4', '2'] ++ '>' :: " what".data))),
        some "U1", some "channel", none⟩).geminiCalls = ["what"] := by
  have h := any_mention_qualifies_for_fallback.2.1 none (fun s => s) 0
    "U1" (some "channel") [] " what".data ['U', '4', '2']
    (by decide) (by decide) (by decide) (by decide) (by decide) (by decide)
    (by decide) (by decide)
  rw [h]
  decide

end SlackBot
